import Mathlib

/-!
Verification of the smart-dc-mlops scripts: a shallow embedding of the
template renderer and credential encoding (`mlflow_deployment/deploy.py`),
the deployment checker (`mlflow_deployment/test-deployment.py`), the bounded
health-check poll (`mlflow-samples/train_voltage_model.py`), and the simple
tracking-server test (`localtestazureblob/simple_test.py`), together with
theorems settling the behavioural claims about them.

Python machine behaviour is modelled explicitly: fallible operations return
`Except PyErr`, byte strings are `List Nat` with entries below 256, and
external systems (the cluster CLI, the tracking server) are parameters of
the functions that consult them.
-/

/-- The Python exception classes that the scripts raise or catch. -/
inductive PyErr where
  | keyError
  | typeError
  | indexError
  | valueError
  | attributeError
  | connectionError
  deriving DecidableEq, Repr

/-- Did a fallible operation succeed? -/
def eIsOk {α : Type} : Except PyErr α → Bool
  | Except.ok _ => true
  | Except.error _ => false

namespace B64

/-- Value of the base64 alphabet at index `n` (for `n < 64`): `A`-`Z`,
`a`-`z`, `0`-`9`, `+`, `/`, as ASCII codes. -/
def sextetChar (n : Nat) : Nat :=
  if n < 26 then n + 65
  else if n < 52 then n + 71
  else if n < 62 then n - 4
  else if n = 62 then 43 else 47

/-- Index of an ASCII code in the base64 alphabet, `none` if absent. -/
def charSextet (c : Nat) : Option Nat :=
  if 65 ≤ c ∧ c ≤ 90 then some (c - 65)
  else if 97 ≤ c ∧ c ≤ 122 then some (c - 71)
  else if 48 ≤ c ∧ c ≤ 57 then some (c + 4)
  else if c = 43 then some 62
  else if c = 47 then some 63
  else none

/-- RFC 4648 base64 encoding of a byte list, as a list of ASCII codes,
with `=` (61) padding; the behaviour of `base64.b64encode`. -/
def encode : List Nat → List Nat
  | [] => []
  | [a] => [sextetChar (a / 4), sextetChar (a % 4 * 16), 61, 61]
  | [a, b] => [sextetChar (a / 4), sextetChar (a % 4 * 16 + b / 16),
               sextetChar (b % 16 * 4), 61]
  | a :: b :: c :: rest =>
      sextetChar (a / 4) :: sextetChar (a % 4 * 16 + b / 16) ::
      sextetChar (b % 16 * 4 + c / 64) :: sextetChar (c % 64) :: encode rest

/-- RFC 4648 base64 decoding of a list of ASCII codes back to bytes;
the behaviour of `base64.b64decode` on well-formed input.  A final quantum
ending in one or two `=` (61) pads yields two bytes or one byte. -/
def decode : List Nat → Option (List Nat)
  | [] => some []
  | c1 :: c2 :: c3 :: c4 :: rest =>
      if c3 = 61 ∧ c4 = 61 ∧ rest = [] then do
        let s1 ← charSextet c1
        let s2 ← charSextet c2
        some [s1 * 4 + s2 / 16]
      else if c4 = 61 ∧ rest = [] then do
        let s1 ← charSextet c1
        let s2 ← charSextet c2
        let s3 ← charSextet c3
        some [s1 * 4 + s2 / 16, s2 % 16 * 16 + s3 / 4]
      else do
        let s1 ← charSextet c1
        let s2 ← charSextet c2
        let s3 ← charSextet c3
        let s4 ← charSextet c4
        let tl ← decode rest
        some ((s1 * 4 + s2 / 16) :: (s2 % 16 * 16 + s3 / 4) :: (s3 % 4 * 64 + s4) :: tl)
  | _ => none


end B64

/-! ## deploy.py: values, credential encoding, template substitution -/

namespace Deploy

/-- Decimal ASCII digits of a natural number, fuel-based so that it reduces
in the kernel; `decDigitsAux (n+1) n` renders `n` the way Python `str` does. -/
def decDigitsAux : Nat → Nat → List Nat
  | 0, _ => []
  | fuel + 1, n => if n < 10 then [n + 48] else decDigitsAux fuel (n / 10) ++ [n % 10 + 48]

/-- Byte string of Python `str(i)` for an int `i`: optional `-` (45) then
decimal digits. -/
def intDecBytes (i : Int) : List Nat :=
  if i < 0 then 45 :: decDigitsAux (i.natAbs + 1) i.natAbs
  else decDigitsAux (i.natAbs + 1) i.natAbs

/-- An argument to `deploy.base64_encode`: a Python string (modelled as its
UTF-8 byte sequence) or an int. -/
inductive StrOrInt where
  | strB (bytes : List Nat)
  | intV (n : Int)
  deriving DecidableEq

/-- The byte sequence `deploy.base64_encode` actually encodes: the string's
own bytes, or the decimal rendering of the int (`value = str(value)`). -/
def valueBytes : StrOrInt → List Nat
  | StrOrInt.strB bs => bs
  | StrOrInt.intV n => intDecBytes n

/-- A value is a well-formed byte string (every entry is a byte). -/
def wfBytes : StrOrInt → Bool
  | StrOrInt.strB bs => bs.all fun b => b < 256
  | StrOrInt.intV _ => true

/-- Model of `deploy.base64_encode`: ints are first converted with `str`, then the
byte encoding of the string is base64-encoded. -/
def base64_encode (v : StrOrInt) : List Nat :=
  B64.encode (valueBytes v)

/-- UTF-8 bytes of one character, the behaviour of Python `str.encode`. -/
def utf8Bytes (c : Char) : List Nat :=
  let n := c.toNat
  if n < 128 then [n]
  else if n < 2048 then [192 + n / 64, 128 + n % 64]
  else if n < 65536 then [224 + n / 4096, 128 + n / 64 % 64, 128 + n % 64]
  else [240 + n / 262144, 128 + n / 4096 % 64, 128 + n / 64 % 64, 128 + n % 64]

/-- UTF-8 bytes of a string. -/
def strBytes (s : String) : List Nat :=
  (s.data.map utf8Bytes).flatten

/-- Base64 of a byte list, as the text `base64.b64encode(...).decode()`
returns. -/
def b64str (bs : List Nat) : String :=
  String.mk ((B64.encode bs).map Char.ofNat)

/-- A scalar configuration value as loaded from the per-environment YAML
config (the spec's data model: flat string/int-valued mappings, plus the
YAML bool/null scalars). -/
inductive YVal where
  | str (s : String)
  | int (n : Int)
  | bool (b : Bool)
  | null
  deriving DecidableEq

/-- Python `str()` of a scalar, as a character list. -/
def pyStrChars : YVal → List Char
  | YVal.str s => s.data
  | YVal.int n => (intDecBytes n).map Char.ofNat
  | YVal.bool true => ['T', 'r', 'u', 'e']
  | YVal.bool false => ['F', 'a', 'l', 's', 'e']
  | YVal.null => ['N', 'o', 'n', 'e']

/-- Python truthiness of a scalar. -/
def truthy : YVal → Bool
  | YVal.str s => !s.isEmpty
  | YVal.int n => decide (n ≠ 0)
  | YVal.bool b => b
  | YVal.null => false

/-- Model of `deploy.base64_encode` applied to a configuration value: bools are ints
in Python (`str(True) = "True"`), `None` has no `encode` and raises
`AttributeError`. -/
def base64_encode_val : YVal → Except PyErr String
  | YVal.null => Except.error PyErr.attributeError
  | v => Except.ok (b64str (strBytes (String.mk (pyStrChars v))))

/-- A Python dict with string keys and scalar values. -/
abbrev Dict := List (String × YVal)

/-- Dict lookup (first matching key). -/
def dictGet : Dict → String → Option YVal
  | [], _ => none
  | (k, v) :: rest, key => if k = key then some v else dictGet rest key

/-- Dict assignment: replace the value at an existing key in place, or
append a new entry. -/
def dictSet : Dict → String → YVal → Dict
  | [], key, v => [(key, v)]
  | (k, w) :: rest, key, v =>
      if k = key then (key, v) :: rest else (k, w) :: dictSet rest key v

/-- Look up `config[key]` and encode it; Python raises `KeyError` when the key is absent. -/
def pgEncode (config : Dict) (key : String) : Except PyErr String :=
  match dictGet config key with
  | none => Except.error PyErr.keyError
  | some v => base64_encode_val v

/-- Lines 32-41 of `deploy.py`: start from a copy of the config and add the
six derived base64 entries, reading the source values from the config. -/
def buildSubstitutions (config : Dict) : Except PyErr Dict := do
  let b1 ← pgEncode config "PG_USER"
  let s1 := dictSet config "PG_USER_B64" (YVal.str b1)
  let b2 ← pgEncode config "PG_PASSWORD"
  let s2 := dictSet s1 "PG_PASSWORD_B64" (YVal.str b2)
  let b3 ← pgEncode config "PG_HOST"
  let s3 := dictSet s2 "PG_HOST_B64" (YVal.str b3)
  let b4 ← pgEncode config "PG_DATABASE"
  let s4 := dictSet s3 "PG_DATABASE_B64" (YVal.str b4)
  let b5 ← pgEncode config "PG_PORT"
  let s5 := dictSet s4 "PG_PORT_B64" (YVal.str b5)
  let b6 ← pgEncode config "PG_SCHEMA"
  let s6 := dictSet s5 "PG_SCHEMA_B64" (YVal.str b6)
  return s6

/-- A token of a `string.Template` text: a literal character, a placeholder
reference, or an invalid `$` pattern (which makes `substitute` raise
`ValueError`). -/
inductive Tok where
  | lit (c : Char)
  | ph (name : List Char)
  | invalid
  deriving DecidableEq

/-- First character of an identifier, ASCII as in `string.Template`. -/
def isIdStart (c : Char) : Bool :=
  c.isAlpha || c = '_'

/-- Identifier character. -/
def isIdChar (c : Char) : Bool :=
  isIdStart c || c.isDigit

/-- Length of the longest identifier-character run at the head. -/
def takeIdLen : List Char → Nat
  | [] => 0
  | c :: rest => if isIdChar c then takeIdLen rest + 1 else 0

/-- Opening brace character, written by code to satisfy source hygiene. -/
def braceL : Char := Char.ofNat 123

/-- Closing brace character. -/
def braceR : Char := Char.ofNat 125

/-- Classify the text following a `$`, returning the token and the number of
characters consumed after the `$` (0 for an invalid pattern: `substitute`
reports the error at the `$`).  This mirrors the `string.Template` pattern:
the `$$` escape, `$identifier` (longest match), the braced form, and
otherwise an invalid pattern. -/
def scanDollar (l : List Char) : Tok × Nat :=
  match l with
  | [] => (Tok.invalid, 0)
  | d :: r =>
      if d = '$' then (Tok.lit '$', 1)
      else if isIdStart d then
        let k := takeIdLen (d :: r)
        (Tok.ph ((d :: r).take k), k)
      else if d = braceL then
        let k := takeIdLen r
        match r.drop k with
        | e :: _ =>
            if e = braceR ∧ 0 < k ∧ isIdStart (r.headD braceR) then
              (Tok.ph (r.take k), k + 2)
            else (Tok.invalid, 0)
        | [] => (Tok.invalid, 0)
      else (Tok.invalid, 0)

/-- Tokenizer for `string.Template` text, fuel-based (each step consumes at
least one character, so `length + 1` fuel always suffices). -/
def tokenizeAux : Nat → List Char → List Tok
  | 0, _ => []
  | fuel + 1, l =>
      match l with
      | [] => []
      | c :: rest =>
          if c = '$' then
            let p := scanDollar rest
            p.1 :: tokenizeAux fuel (rest.drop p.2)
          else Tok.lit c :: tokenizeAux fuel rest

/-- Token list of a template text. -/
def tokenize (l : List Char) : List Tok :=
  tokenizeAux (l.length + 1) l

/-- The placeholder names a template references. -/
def referencedNames (toks : List Tok) : List (List Char) :=
  toks.filterMap fun t =>
    match t with
    | Tok.ph n => some n
    | _ => none

/-- Is a token a plain literal character? -/
def isLitTok : Tok → Bool
  | Tok.lit _ => true
  | _ => false

/-- Rendering of one token under `Template.substitute`: literals pass
through, placeholders are `str(mapping[name])` (`KeyError` when absent),
invalid patterns raise `ValueError`. -/
def renderTok (m : Dict) : Tok → Except PyErr (List Char)
  | Tok.lit c => Except.ok [c]
  | Tok.invalid => Except.error PyErr.valueError
  | Tok.ph name =>
      match dictGet m (String.mk name) with
      | some v => Except.ok (pyStrChars v)
      | none => Except.error PyErr.keyError

/-- Model of `Template.substitute`: render every token, failing on the first missing
name or invalid pattern. -/
def substT (m : Dict) (toks : List Tok) : Except PyErr (List Char) :=
  (toks.mapM (renderTok m)).map List.flatten

/-- Spec-side rendering ("the template with every placeholder replaced by
its mapped value"), total by construction; stated from the spec's words,
for comparison with `substT`. -/
def substSpec (m : Dict) (toks : List Tok) : List Char :=
  (toks.map fun t =>
    match t with
    | Tok.lit c => [c]
    | Tok.ph name => pyStrChars ((dictGet m (String.mk name)).getD YVal.null)
    | Tok.invalid => []).flatten

/-- Model of `deploy.process_template` lines 24-50, observed at the value level: read
the template, build the substitution mapping, substitute, and only then
write the output; an exception anywhere earlier aborts before the output
file is opened, so `Except.error` means no output is written. -/
def process_template (templateContent : List Char) (config : Dict) :
    Except PyErr (List Char) :=
  (buildSubstitutions config).bind fun subs => substT subs (tokenize templateContent)

/-- A heap of Python dict objects; dict variables are references into it. -/
abbrev DictStore := List Dict

/-- Read the dict behind a reference. -/
def storeGet (st : DictStore) (r : Nat) : Dict :=
  st.getD r []

/-- Assignment `d[key] = v` on the dict behind reference `r`. -/
def storeSet (st : DictStore) (r : Nat) (key : String) (v : YVal) : DictStore :=
  st.set r (dictSet (storeGet st r) key v)

/-- One line `substitutions[dstKey] = base64_encode(config[srcKey])` of
`process_template`, acting on the dict heap. -/
def b64SetStep (st : DictStore) (configRef subsRef : Nat) (srcKey dstKey : String) :
    Except PyErr DictStore :=
  match dictGet (storeGet st configRef) srcKey with
  | none => Except.error PyErr.keyError
  | some v =>
      match base64_encode_val v with
      | Except.error e => Except.error e
      | Except.ok enc => Except.ok (storeSet st subsRef dstKey (YVal.str enc))

/-- Model of `process_template` acting on the dict heap: `substitutions =
config.copy()` allocates a fresh dict, the six derived entries are written
to that copy, and the config dict is never assigned to.  Returns the output
text (or the exception) together with the final heap. -/
def process_template_st (templateContent : List Char) (st : DictStore)
    (configRef : Nat) : Except PyErr (List Char) × DictStore :=
  let subsRef := st.length
  let st1 := st ++ [storeGet st configRef]
  match b64SetStep st1 configRef subsRef "PG_USER" "PG_USER_B64" with
  | Except.error e => (Except.error e, st1)
  | Except.ok st2 =>
    match b64SetStep st2 configRef subsRef "PG_PASSWORD" "PG_PASSWORD_B64" with
    | Except.error e => (Except.error e, st2)
    | Except.ok st3 =>
      match b64SetStep st3 configRef subsRef "PG_HOST" "PG_HOST_B64" with
      | Except.error e => (Except.error e, st3)
      | Except.ok st4 =>
        match b64SetStep st4 configRef subsRef "PG_DATABASE" "PG_DATABASE_B64" with
        | Except.error e => (Except.error e, st4)
        | Except.ok st5 =>
          match b64SetStep st5 configRef subsRef "PG_PORT" "PG_PORT_B64" with
          | Except.error e => (Except.error e, st5)
          | Except.ok st6 =>
            match b64SetStep st6 configRef subsRef "PG_SCHEMA" "PG_SCHEMA_B64" with
            | Except.error e => (Except.error e, st6)
            | Except.ok st7 =>
              match substT (storeGet st7 subsRef) (tokenize templateContent) with
              | Except.error e => (Except.error e, st7)
              | Except.ok out => (Except.ok out, st7)

/-- Python truthiness of `config.get(key)`: a missing key gives `None`,
which is falsy. -/
def truthyOpt : Option YVal → Bool
  | none => false
  | some v => truthy v

/-- The five templates `deploy.main` always lists. -/
def template_files_base : List String :=
  ["mlflow-deployment-template.yaml",
   "mlflow-service-template.yaml",
   "mlflow-pv-template.yaml",
   "mlflow-pvc-template.yaml",
   "mlflow-postgres-secret-template.yaml"]

/-- Lines 69-81 of `deploy.py`: the templates attempted for an environment
configuration; the ingress template is appended exactly when
`config.get("MLFLOW_PATH")` is truthy. -/
def template_files (config : Dict) : List String :=
  template_files_base ++
    (if truthyOpt (dictGet config "MLFLOW_PATH") then ["mlflow-ingress-template.yaml"]
     else [])

end Deploy

/-! ## test-deployment.py: deployment verification -/

namespace DeployTest

/-- A JSON value, as `json.loads` produces from `kubectl -o json` output. -/
inductive JVal where
  | str (s : String)
  | num (n : Int)
  | bool (b : Bool)
  | null
  | arr (items : List JVal)
  | obj (fields : List (String × JVal))

/-- Association lookup in a JSON object. -/
def jAssoc : List (String × JVal) → String → Option JVal
  | [], _ => none
  | (k, v) :: rest, key => if k = key then some v else jAssoc rest key

/-- Python subscript `v[key]` with a string key: object field access
(`KeyError` when missing), `TypeError` on every other value. -/
def jLookup (v : JVal) (key : String) : Except PyErr JVal :=
  match v with
  | JVal.obj fields =>
      match jAssoc fields key with
      | some x => Except.ok x
      | none => Except.error PyErr.keyError
  | _ => Except.error PyErr.typeError

/-- Python subscript `v[0]`: list head (`IndexError` when empty), first
character of a string, `KeyError` for a dict without the int key,
`TypeError` otherwise. -/
def jIndexZero (v : JVal) : Except PyErr JVal :=
  match v with
  | JVal.arr (x :: _) => Except.ok x
  | JVal.arr [] => Except.error PyErr.indexError
  | JVal.str s =>
      if s.isEmpty then Except.error PyErr.indexError
      else Except.ok (JVal.str (String.mk (s.data.take 1)))
  | JVal.obj _ => Except.error PyErr.keyError
  | _ => Except.error PyErr.typeError

/-- Python iteration `for x in v`: list elements, characters of a string,
keys of a dict, `TypeError` otherwise. -/
def jIter (v : JVal) : Except PyErr (List JVal) :=
  match v with
  | JVal.arr l => Except.ok l
  | JVal.str s => Except.ok (s.data.map fun c => JVal.str (String.mk [c]))
  | JVal.obj fields => Except.ok (fields.map fun p => JVal.str p.1)
  | _ => Except.error PyErr.typeError

/-- Python truthiness of a JSON value. -/
def jTruthy : JVal → Bool
  | JVal.str s => !s.isEmpty
  | JVal.num n => decide (n ≠ 0)
  | JVal.bool b => b
  | JVal.null => false
  | JVal.arr l => !l.isEmpty
  | JVal.obj f => !f.isEmpty

/-- Result of one `run_command` invocation of `kubectl`: the return code,
and the JSON parse of its stdout (`none` when `json.loads` raises
`JSONDecodeError`). -/
structure CmdOut where
  returncode : Int
  parsed : Option JVal

/-- The cluster responses a run of `test-deployment.py` observes, one per
`kubectl` query the five checks issue. -/
structure KubeWorld where
  nsReturncode : Int
  pods : CmdOut
  svc : CmdOut
  pvc : CmdOut
  secrets : CmdOut

/-- Field accesses `pod['metadata']['name']` and `pod['status']['phase']`
performed on one pods item (lines 44-45). -/
def podFields (pod : JVal) : Except PyErr Unit := do
  let md ← jLookup pod "metadata"
  let _nm ← jLookup md "name"
  let st ← jLookup pod "status"
  let _ph ← jLookup st "phase"
  pure ()

/-- Field accesses performed on one services item (lines 74-76). -/
def svcFields (svc : JVal) : Except PyErr Unit := do
  let md ← jLookup svc "metadata"
  let _nm ← jLookup md "name"
  let sp ← jLookup svc "spec"
  let _ty ← jLookup sp "type"
  let sp2 ← jLookup svc "spec"
  let ports ← jLookup sp2 "ports"
  let p0 ← jIndexZero ports
  let _pt ← jLookup p0 "port"
  pure ()

/-- Field accesses performed on one PVC item (lines 101-102). -/
def pvcFields (pvc : JVal) : Except PyErr Unit := do
  let md ← jLookup pvc "metadata"
  let _nm ← jLookup md "name"
  let st ← jLookup pvc "status"
  let _ph ← jLookup st "phase"
  pure ()

/-- Field accesses performed on one secrets item (lines 126-127). -/
def secretFields (secret : JVal) : Except PyErr Unit := do
  let md ← jLookup secret "metadata"
  let _nm ← jLookup md "name"
  let _ty ← jLookup secret "type"
  pure ()

/-- `test_namespace`: passes exactly when the `kubectl get namespace`
return code is 0; it parses nothing and cannot raise. -/
def test_namespace (w : KubeWorld) : Except PyErr Bool :=
  Except.ok (decide (w.nsReturncode = 0))

/-- `test_pods` lines 33-61: non-zero return code or a JSON parse failure
return `False`; a missing `items` key or a malformed item raises (only
`JSONDecodeError` is caught); a truthy `items` whose items all carry
`metadata.name` and `status.phase` returns `True` - the `Running` phase
check only prints a warning. -/
def test_pods (w : KubeWorld) : Except PyErr Bool :=
  if w.pods.returncode = 0 then
    match w.pods.parsed with
    | none => Except.ok false
    | some pods_data => do
        let items ← jLookup pods_data "items"
        if jTruthy items then do
          let l ← jIter items
          let _ ← l.mapM podFields
          pure true
        else pure false
  else Except.ok false

/-- `test_services` lines 63-87, same shape as `test_pods`. -/
def test_services (w : KubeWorld) : Except PyErr Bool :=
  if w.svc.returncode = 0 then
    match w.svc.parsed with
    | none => Except.ok false
    | some svc_data => do
        let items ← jLookup svc_data "items"
        if jTruthy items then do
          let l ← jIter items
          let _ ← l.mapM svcFields
          pure true
        else pure false
  else Except.ok false

/-- `test_storage` lines 89-113 (the PVC query). -/
def test_storage (w : KubeWorld) : Except PyErr Bool :=
  if w.pvc.returncode = 0 then
    match w.pvc.parsed with
    | none => Except.ok false
    | some pvc_data => do
        let items ← jLookup pvc_data "items"
        if jTruthy items then do
          let l ← jIter items
          let _ ← l.mapM pvcFields
          pure true
        else pure false
  else Except.ok false

/-- `test_secrets` lines 115-138. -/
def test_secrets (w : KubeWorld) : Except PyErr Bool :=
  if w.secrets.returncode = 0 then
    match w.secrets.parsed with
    | none => Except.ok false
    | some secret_data => do
        let items ← jLookup secret_data "items"
        if jTruthy items then do
          let l ← jIter items
          let _ ← l.mapM secretFields
          pure true
        else pure false
  else Except.ok false

/-- The `try/except` around each check in `main` (lines 165-170): an
exception is recorded as a failed check. -/
def exceptToBool : Except PyErr Bool → Bool
  | Except.ok b => b
  | Except.error _ => false

/-- The fixed test list of `main` (lines 154-160), in source order. -/
def tests : List (String × (KubeWorld → Except PyErr Bool)) :=
  [("Namespace", test_namespace),
   ("Pods", test_pods),
   ("Services", test_services),
   ("Storage", test_storage),
   ("Secrets", test_secrets)]

/-- The results accumulation loop of `main` (lines 162-170): every check is
run in order; a raised exception records `False` and the loop continues. -/
def runChecks (w : KubeWorld) : List (String × Bool) :=
  tests.map fun p => (p.1, exceptToBool (p.2 w))

/-- Does a check outcome count as healthy (the check returned `True`)? -/
def isOkTrue : Except PyErr Bool → Bool
  | Except.ok true => true
  | _ => false

/-- Number of the five checks that actually return healthy (`True`). -/
def healthyCount (w : KubeWorld) : Nat :=
  (tests.filter fun p => isOkTrue (p.2 w)).length

/-- Observable outcome of `main`: the summary lines and the process exit
code. -/
structure MainOutcome where
  results : List (String × Bool)
  passed : Nat
  total : Nat
  exitCode : Nat

/-- `main` lines 140-191: an invalid environment exits 1 before any check;
otherwise all five checks run, the summary counts passes, and the exit code
is 0 exactly when every check passed. -/
def main (environment : String) (w : KubeWorld) : MainOutcome :=
  if environment = "dev" ∨ environment = "prod" then
    let results := runChecks w
    let passed := (results.filter fun p => p.2).length
    let total := results.length
    { results := results, passed := passed, total := total,
      exitCode := if passed = total then 0 else 1 }
  else
    { results := [], passed := 0, total := 0, exitCode := 1 }

end DeployTest

/-! ## train_voltage_model.py: bounded health-check poll -/

namespace Voltage

/-- One iteration of `_wait_for_mlflow_server`'s loop body and its
successors, structurally on the number of remaining iterations.  `srv i` is
the observed response of `requests.get(.../health)` at iteration `i`:
`none` models a raised `RequestException`, `some code` a response with that
status code.  Returns the outcome together with the number of requests
issued. -/
def waitAux (srv : Nat → Option Int) : Nat → Nat → Except PyErr Bool × Nat
  | 0, i => (Except.error PyErr.connectionError, i)
  | remaining + 1, i =>
      if srv i = some 200 then (Except.ok true, i + 1)
      else waitAux srv remaining (i + 1)

/-- `_wait_for_mlflow_server` lines 98-114: poll once per iteration for up
to `max_wait` iterations; return `True` on the first status 200, raise
`ConnectionError` after the loop.  A non-200 response and a request
exception both just continue the loop. -/
def wait_for_mlflow_server (srv : Nat → Option Int) (max_wait : Nat) :
    Except PyErr Bool × Nat :=
  waitAux srv max_wait 0

end Voltage

/-! ## localtestazureblob/simple_test.py -/

namespace SimpleTest

/-- The tracking-server operations `simple_test` performs, as observed
outcomes: each field is the result of that MLflow call in this run
(`Except.error` models a raised exception). -/
structure TrackingOps where
  get_experiment_by_name : Except PyErr (Option Nat)
  create_experiment : Except PyErr Nat
  set_experiment : Except PyErr Unit
  start_run : Except PyErr Unit
  log_param : Except PyErr Unit
  log_metric : Except PyErr Unit
  log_artifact : Except PyErr Unit
  search_experiments : Except PyErr (List String)

/-- The body of the `try` block of `simple_test` (lines 41-96), in call
order. -/
def simple_test_body (t : TrackingOps) : Except PyErr Unit := do
  let e ← t.get_experiment_by_name
  let _eid ← match e with
    | none => t.create_experiment
    | some i => pure i
  t.set_experiment
  t.start_run
  t.log_param
  t.log_param
  t.log_metric
  t.log_metric
  t.log_metric
  t.log_artifact
  let _exps ← t.search_experiments
  pure ()

/-- `simple_test` lines 20-106 and the module entry point: the whole body
is wrapped in `try/except Exception`, the handler only prints, and the
script never calls `sys.exit`, so the process exit code is 0 whether or not
the work succeeded.  Returns (exit code, whether the unit of work
succeeded). -/
def simple_test (t : TrackingOps) : Nat × Bool :=
  match simple_test_body t with
  | Except.ok _ => (0, true)
  | Except.error _ => (0, false)

end SimpleTest

/-! ## Concrete fixtures used by witnesses and counterexamples -/

namespace Fixtures

open Deploy DeployTest SimpleTest

/-- A healthy pods item. -/
def goodPod : JVal :=
  JVal.obj [("metadata", JVal.obj [("name", JVal.str "mlflow-1")]),
            ("status", JVal.obj [("phase", JVal.str "Running")])]

/-- A healthy services item. -/
def goodSvc : JVal :=
  JVal.obj [("metadata", JVal.obj [("name", JVal.str "mlflow-svc")]),
            ("spec", JVal.obj [("type", JVal.str "ClusterIP"),
                               ("ports", JVal.arr [JVal.obj [("port", JVal.num 5000)]])])]

/-- A healthy PVC item. -/
def goodPvc : JVal :=
  JVal.obj [("metadata", JVal.obj [("name", JVal.str "mlflow-pvc")]),
            ("status", JVal.obj [("phase", JVal.str "Bound")])]

/-- A healthy secrets item. -/
def goodSecret : JVal :=
  JVal.obj [("metadata", JVal.obj [("name", JVal.str "mlflow-secret")]),
            ("type", JVal.str "Opaque")]

/-- A cluster in which every check passes. -/
def wAllGood : KubeWorld :=
  { nsReturncode := 0,
    pods := { returncode := 0, parsed := some (JVal.obj [("items", JVal.arr [goodPod])]) },
    svc := { returncode := 0, parsed := some (JVal.obj [("items", JVal.arr [goodSvc])]) },
    pvc := { returncode := 0, parsed := some (JVal.obj [("items", JVal.arr [goodPvc])]) },
    secrets := { returncode := 0, parsed := some (JVal.obj [("items", JVal.arr [goodSecret])]) } }

/-- A cluster in which only the pods check passes (the namespace query
fails, the services output does not parse, the PVC list is empty, and the
secrets query raises inside the check via a malformed item). -/
def wOnlyPods : KubeWorld :=
  { nsReturncode := 1,
    pods := { returncode := 0, parsed := some (JVal.obj [("items", JVal.arr [goodPod])]) },
    svc := { returncode := 0, parsed := none },
    pvc := { returncode := 0, parsed := some (JVal.obj [("items", JVal.arr [])]) },
    secrets := { returncode := 0,
                 parsed := some (JVal.obj [("items", JVal.arr [JVal.obj []])]) } }

/-- A pods response whose query succeeds, parses, and lists one item, but
whose item lacks `metadata`, so `test_pods` raises `KeyError`. -/
def wPodNoMeta : KubeWorld :=
  { nsReturncode := 0,
    pods := { returncode := 0, parsed := some (JVal.obj [("items", JVal.arr [JVal.obj []])]) },
    svc := { returncode := 1, parsed := none },
    pvc := { returncode := 1, parsed := none },
    secrets := { returncode := 1, parsed := none } }

/-- A run of `simple_test` in which every tracking operation succeeds. -/
def tOk : TrackingOps :=
  { get_experiment_by_name := Except.ok none,
    create_experiment := Except.ok 1,
    set_experiment := Except.ok (),
    start_run := Except.ok (),
    log_param := Except.ok (),
    log_metric := Except.ok (),
    log_artifact := Except.ok (),
    search_experiments := Except.ok ["simple-azure-blob-test"] }

/-- A run of `simple_test` in which starting the run fails against the
tracking server. -/
def tBad : TrackingOps :=
  { get_experiment_by_name := Except.ok (some 1),
    create_experiment := Except.ok 1,
    set_experiment := Except.ok (),
    start_run := Except.error PyErr.connectionError,
    log_param := Except.ok (),
    log_metric := Except.ok (),
    log_artifact := Except.ok (),
    search_experiments := Except.ok [] }

/-- A configuration with the six PostgreSQL keys and one extra entry. -/
def cfgW : Deploy.Dict :=
  [("PG_USER", Deploy.YVal.str "u"),
   ("PG_PASSWORD", Deploy.YVal.str "p"),
   ("PG_HOST", Deploy.YVal.str "h"),
   ("PG_DATABASE", Deploy.YVal.str "d"),
   ("PG_PORT", Deploy.YVal.int 5432),
   ("PG_SCHEMA", Deploy.YVal.str "s"),
   ("A", Deploy.YVal.str "x")]

/-- The substitution mapping `cfgW` yields. -/
def subsW : Deploy.Dict :=
  match Deploy.buildSubstitutions cfgW with
  | Except.ok s => s
  | Except.error _ => []

/-- A small template referencing the extra key: `a$A`. -/
def tmplW : List Char := ['a', '$', 'A']

/-- A template referencing a key that is in no substitution mapping built
from `cfgW`. -/
def tmplMissing : List Char := ['$', 'M', 'I', 'S', 'S']

end Fixtures

/-! ## Theorems -/

namespace B64

theorem charSextet_sextetChar : ∀ n, n < 64 → charSextet (sextetChar n) = some n := by
  decide

theorem sextetChar_ne_pad : ∀ n, n < 64 → sextetChar n ≠ 61 := by
  decide

theorem decode_encode (bs : List Nat) (h : ∀ b ∈ bs, b < 256) :
    decode (encode bs) = some bs := by
  induction bs using encode.induct with
  | case1 =>
      rfl
  | case2 a =>
      have ha : a < 256 := h a (by simp)
      have h1 : a / 4 < 64 := by omega
      have h2 : a % 4 * 16 < 64 := by omega
      simp [encode, decode, charSextet_sextetChar _ h1, charSextet_sextetChar _ h2]
      omega
  | case3 a b =>
      have ha : a < 256 := h a (by simp)
      have hb : b < 256 := h b (by simp)
      have h1 : a / 4 < 64 := by omega
      have h2 : a % 4 * 16 + b / 16 < 64 := by omega
      have h3 : b % 16 * 4 < 64 := by omega
      have hne : sextetChar (b % 16 * 4) ≠ 61 := sextetChar_ne_pad _ h3
      simp [encode, decode, hne, charSextet_sextetChar _ h1, charSextet_sextetChar _ h2,
        charSextet_sextetChar _ h3]
      constructor
      · omega
      · omega
  | case4 a b c rest ih =>
      have ha : a < 256 := h a (by simp)
      have hb : b < 256 := h b (by simp)
      have hc : c < 256 := h c (by simp)
      have h1 : a / 4 < 64 := by omega
      have h2 : a % 4 * 16 + b / 16 < 64 := by omega
      have h3 : b % 16 * 4 + c / 64 < 64 := by omega
      have h4 : c % 64 < 64 := by omega
      have hs3 : sextetChar (b % 16 * 4 + c / 64) ≠ 61 := sextetChar_ne_pad _ h3
      have hs4 : sextetChar (c % 64) ≠ 61 := sextetChar_ne_pad _ h4
      have ihr : decode (encode rest) = some rest := by
        refine ih ?_
        intro x hx
        exact h x (by simp [hx])
      rw [show encode (a :: b :: c :: rest) =
          sextetChar (a / 4) :: sextetChar (a % 4 * 16 + b / 16) ::
          sextetChar (b % 16 * 4 + c / 64) :: sextetChar (c % 64) :: encode rest from rfl]
      simp [decode, hs3, hs4, ihr, charSextet_sextetChar _ h1, charSextet_sextetChar _ h2,
        charSextet_sextetChar _ h3, charSextet_sextetChar _ h4]
      refine ⟨by omega, by omega, by omega⟩


end B64

/-! ### General lemmas about fallible iteration -/

theorem except_mapM_map {α β : Type} (f : α → Except PyErr β) (g : α → β)
    (l : List α) (h : ∀ a ∈ l, f a = Except.ok (g a)) :
    l.mapM f = Except.ok (l.map g) := by
  induction l with
  | nil => rfl
  | cons a as ih =>
      rw [List.mapM_cons, h a (by simp), ih (fun x hx => h x (by simp [hx]))]
      rfl

theorem except_mapM_error {α β : Type} (f : α → Except PyErr β) (l : List α) (a : α)
    (ha : a ∈ l) (e : PyErr) (he : f a = Except.error e) :
    ∃ e2, l.mapM f = Except.error e2 := by
  induction l with
  | nil => simp at ha
  | cons b bs ih =>
      rw [List.mapM_cons]
      cases hb : f b with
      | error e2 => exact ⟨e2, rfl⟩
      | ok y =>
          rcases List.mem_cons.mp ha with h1 | h1
          · subst h1
            rw [hb] at he
            simp at he
          · rcases ih h1 with ⟨e2, h2⟩
            refine ⟨e2, ?_⟩
            show bs.mapM f >>= _ = _
            rw [h2]
            rfl

theorem except_mapM_ok_forall {α β : Type} (f : α → Except PyErr β) (l : List α)
    (u : List β) (h : l.mapM f = Except.ok u) :
    ∀ a ∈ l, ∃ b, f a = Except.ok b := by
  intro a ha
  cases hfa : f a with
  | ok b => exact ⟨b, rfl⟩
  | error e =>
      rcases except_mapM_error f l a ha e hfa with ⟨e2, h2⟩
      rw [h2] at h
      simp at h

/-! ### C4: the base64 round trip -/

namespace Deploy

theorem decDigitsAux_lt (fuel : Nat) : ∀ n, ∀ b ∈ decDigitsAux fuel n, b < 256 := by
  induction fuel with
  | zero =>
      intro n b hb
      simp [decDigitsAux] at hb
  | succ fuel ih =>
      intro n b hb
      by_cases hn : n < 10
      · simp [decDigitsAux, hn] at hb
        omega
      · simp [decDigitsAux, hn] at hb
        rcases hb with hb | hb
        · exact ih _ b hb
        · omega

theorem intDecBytes_lt (i : Int) : ∀ b ∈ intDecBytes i, b < 256 := by
  intro b hb
  unfold intDecBytes at hb
  by_cases hi : i < 0
  · simp [hi] at hb
    rcases hb with hb | hb
    · omega
    · exact decDigitsAux_lt _ _ b hb
  · simp [hi] at hb
    exact decDigitsAux_lt _ _ b hb

end Deploy

/-- C4 (counterexample): decoding the base64 that `base64_encode` produces
for the integer 42 yields the byte string "42", not the integer 42, so the
encode-then-decode round trip does not return the original value for
integer-valued inputs. -/
theorem c4_counterexample :
    (B64.decode (Deploy.base64_encode (Deploy.StrOrInt.intV 42))).map Deploy.StrOrInt.strB ≠
      some (Deploy.StrOrInt.intV 42) := by
  decide

/-- C4 (amended): base64-decoding the output of `base64_encode` returns the
encoded byte string: the original value itself for string inputs, and the
decimal string rendering (not the integer) for integer inputs. -/
theorem c4_roundtrip (v : Deploy.StrOrInt) (h : Deploy.wfBytes v = true) :
    B64.decode (Deploy.base64_encode v) = some (Deploy.valueBytes v) := by
  cases v with
  | strB bs =>
      refine B64.decode_encode bs ?_
      intro b hb
      simp [Deploy.wfBytes, List.all_eq_true] at h
      exact h b hb
  | intV n =>
      exact B64.decode_encode _ (Deploy.intDecBytes_lt n)

/-- Witness for `c4_roundtrip` at the byte string "hi" (104, 105). -/
theorem c4_roundtrip_witness :
    Deploy.wfBytes (Deploy.StrOrInt.strB [104, 105]) = true ∧
    B64.decode (Deploy.base64_encode (Deploy.StrOrInt.strB [104, 105])) =
      some (Deploy.valueBytes (Deploy.StrOrInt.strB [104, 105])) :=
  ⟨by decide, c4_roundtrip (Deploy.StrOrInt.strB [104, 105]) (by decide)⟩

/-! ### C2, C3: template substitution -/

namespace Deploy

theorem tokenizeAux_noDollar (fuel : Nat) : ∀ l : List Char, l.length < fuel →
    (∀ c ∈ l, c ≠ '$') → tokenizeAux fuel l = l.map Tok.lit := by
  induction fuel with
  | zero =>
      intro l hl h
      omega
  | succ fuel ih =>
      intro l hl h
      cases l with
      | nil => rfl
      | cons c rest =>
          have hc : c ≠ '$' := h c (by simp)
          simp only [tokenizeAux]
          rw [if_neg hc]
          rw [ih rest (by simp [List.length_cons] at hl; omega)
              (fun x hx => h x (by simp [hx]))]
          rfl

theorem tokenize_noDollar (l : List Char) (h : ∀ c ∈ l, c ≠ '$') :
    tokenize l = l.map Tok.lit :=
  tokenizeAux_noDollar _ l (by omega) h

theorem mem_referencedNames (toks : List Tok) (n : List Char) :
    n ∈ referencedNames toks ↔ Tok.ph n ∈ toks := by
  simp only [referencedNames, List.mem_filterMap]
  constructor
  · rintro ⟨t, ht, hm⟩
    cases t with
    | lit c => simp at hm
    | invalid => simp at hm
    | ph m =>
        simp at hm
        subst hm
        exact ht
  · intro ht
    exact ⟨Tok.ph n, ht, rfl⟩

end Deploy

/-- C2 (amended): when the substitution mapping is built (the six `PG_*`
source keys are present and encodable), the template has no invalid `$`
pattern and no `$$` escape, and every referenced placeholder is mapped to a
value whose rendering contains no `$`, then `process_template` succeeds,
its output is the template text with every placeholder replaced by its
mapped value (`substSpec`), and no placeholder token remains in the
output. -/
theorem c2_substitution (t : List Char) (config subs : Deploy.Dict)
    (h1 : Deploy.buildSubstitutions config = Except.ok subs)
    (h2 : Deploy.Tok.invalid ∉ Deploy.tokenize t)
    (h3 : Deploy.Tok.lit '$' ∉ Deploy.tokenize t)
    (h4 : ∀ n ∈ Deploy.referencedNames (Deploy.tokenize t),
        ∃ v, Deploy.dictGet subs (String.mk n) = some v ∧ '$' ∉ Deploy.pyStrChars v) :
    Deploy.process_template t config =
      Except.ok (Deploy.substSpec subs (Deploy.tokenize t)) ∧
    (Deploy.tokenize (Deploy.substSpec subs (Deploy.tokenize t))).all
      Deploy.isLitTok = true := by
  have hrender : ∀ tok ∈ Deploy.tokenize t,
      Deploy.renderTok subs tok = Except.ok
        (match tok with
         | Deploy.Tok.lit c => [c]
         | Deploy.Tok.ph name =>
             Deploy.pyStrChars ((Deploy.dictGet subs (String.mk name)).getD Deploy.YVal.null)
         | Deploy.Tok.invalid => []) := by
    intro tok htok
    cases tok with
    | lit c => rfl
    | invalid => exact absurd htok h2
    | ph name =>
        rcases h4 name ((Deploy.mem_referencedNames _ _).mpr htok) with ⟨v, hv, _⟩
        simp [Deploy.renderTok, hv]
  have hmm := except_mapM_map (Deploy.renderTok subs) _ (Deploy.tokenize t) hrender
  have hout : Deploy.process_template t config =
      Except.ok (Deploy.substSpec subs (Deploy.tokenize t)) := by
    unfold Deploy.process_template
    rw [h1]
    show Deploy.substT subs (Deploy.tokenize t) = _
    unfold Deploy.substT
    rw [hmm]
    rfl
  refine ⟨hout, ?_⟩
  have hnd : ∀ c ∈ Deploy.substSpec subs (Deploy.tokenize t), c ≠ '$' := by
    intro c hc
    unfold Deploy.substSpec at hc
    rw [List.mem_flatten] at hc
    rcases hc with ⟨piece, hpiece, hcp⟩
    rw [List.mem_map] at hpiece
    rcases hpiece with ⟨tok, htok, rfl⟩
    cases tok with
    | lit d =>
        simp at hcp
        subst hcp
        intro hceq
        rw [hceq] at htok
        exact h3 htok
    | invalid => simp at hcp
    | ph name =>
        rcases h4 name ((Deploy.mem_referencedNames _ _).mpr htok) with ⟨v, hv, hdol⟩
        simp [hv] at hcp
        intro hceq
        rw [hceq] at hcp
        exact hdol hcp
  rw [Deploy.tokenize_noDollar _ hnd]
  simp [List.all_eq_true, Deploy.isLitTok]

/-- C2 (counterexample): the empty template references no placeholder, so
the empty configuration has an entry for every referenced placeholder, yet
`process_template` raises `KeyError` (for the derived key source
`PG_USER`) instead of producing the substituted template. -/
theorem c2_counterexample :
    Deploy.referencedNames (Deploy.tokenize []) = [] ∧
    Deploy.process_template [] [] = Except.error PyErr.keyError :=
  ⟨rfl, rfl⟩

/-- Witness for `c2_substitution`: the template `a$A` under a configuration
holding the six `PG_*` keys and `A = "x"`. -/
theorem c2_substitution_witness :
    Deploy.buildSubstitutions Fixtures.cfgW = Except.ok Fixtures.subsW ∧
    Deploy.process_template Fixtures.tmplW Fixtures.cfgW =
      Except.ok (Deploy.substSpec Fixtures.subsW (Deploy.tokenize Fixtures.tmplW)) ∧
    (Deploy.tokenize (Deploy.substSpec Fixtures.subsW (Deploy.tokenize Fixtures.tmplW))).all
      Deploy.isLitTok = true := by
  have h4 : ∀ n ∈ Deploy.referencedNames (Deploy.tokenize Fixtures.tmplW),
      ∃ v, Deploy.dictGet Fixtures.subsW (String.mk n) = some v ∧
        '$' ∉ Deploy.pyStrChars v := by
    intro n hn
    have hrn : Deploy.referencedNames (Deploy.tokenize Fixtures.tmplW) = [['A']] := by decide
    rw [hrn] at hn
    simp at hn
    subst hn
    exact ⟨Deploy.YVal.str "x", by decide, by decide⟩
  have h := c2_substitution Fixtures.tmplW Fixtures.cfgW Fixtures.subsW rfl
    (by decide) (by decide) h4
  exact ⟨rfl, h.1, h.2⟩

/-- C3 (confirmed): when a referenced placeholder has no entry in the
substitution mapping, `process_template` raises (the `Template.substitute`
call fails before the output file is opened), so no output is written. -/
theorem c3_missing_placeholder (t : List Char) (config subs : Deploy.Dict) (n : List Char)
    (h1 : Deploy.buildSubstitutions config = Except.ok subs)
    (hn : n ∈ Deploy.referencedNames (Deploy.tokenize t))
    (hmiss : Deploy.dictGet subs (String.mk n) = none) :
    eIsOk (Deploy.process_template t config) = false := by
  have htok : Deploy.Tok.ph n ∈ Deploy.tokenize t := (Deploy.mem_referencedNames _ _).mp hn
  have hre : Deploy.renderTok subs (Deploy.Tok.ph n) = Except.error PyErr.keyError := by
    simp [Deploy.renderTok, hmiss]
  rcases except_mapM_error (Deploy.renderTok subs) _ _ htok _ hre with ⟨e2, h2⟩
  unfold Deploy.process_template
  rw [h1]
  show eIsOk (Deploy.substT subs (Deploy.tokenize t)) = false
  unfold Deploy.substT
  rw [h2]
  rfl

/-- Witness for `c3_missing_placeholder`: the template `$MISS` under the
six-key configuration, whose substitution mapping has no `MISS` entry. -/
theorem c3_missing_placeholder_witness :
    Deploy.buildSubstitutions Fixtures.cfgW = Except.ok Fixtures.subsW ∧
    ['M', 'I', 'S', 'S'] ∈ Deploy.referencedNames (Deploy.tokenize Fixtures.tmplMissing) ∧
    Deploy.dictGet Fixtures.subsW (String.mk ['M', 'I', 'S', 'S']) = none ∧
    eIsOk (Deploy.process_template Fixtures.tmplMissing Fixtures.cfgW) = false :=
  ⟨rfl, by decide, by decide,
    c3_missing_placeholder Fixtures.tmplMissing Fixtures.cfgW Fixtures.subsW
      ['M', 'I', 'S', 'S'] rfl (by decide) (by decide)⟩

/-! ### C8: process_template leaves the config dict unchanged -/

namespace Deploy

theorem storeGet_append_lt (st : DictStore) (d : Dict) (r : Nat) (h : r < st.length) :
    storeGet (st ++ [d]) r = storeGet st r := by
  simp [storeGet, List.getD_eq_getElem?_getD, List.getElem?_append_left h]

theorem storeGet_set_ne (st : DictStore) (r : Nat) (k : String) (v : YVal)
    (i : Nat) (h : i ≠ r) :
    storeGet (storeSet st r k v) i = storeGet st i := by
  simp [storeGet, storeSet, List.getD_eq_getElem?_getD,
    List.getElem?_set_ne (show r ≠ i by omega)]

theorem b64SetStep_frame (st st2 : DictStore) (cRef sRef : Nat) (k1 k2 : String)
    (i : Nat) (hne : i ≠ sRef) (h : b64SetStep st cRef sRef k1 k2 = Except.ok st2) :
    storeGet st2 i = storeGet st i := by
  unfold b64SetStep at h
  split at h
  · simp at h
  · split at h
    · simp at h
    · injection h with hh
      rw [← hh]
      exact storeGet_set_ne st sRef k2 _ i hne

end Deploy

/-- C8 (confirmed): `process_template` never mutates the configuration
dict: the six derived base64 entries are written to the copy `substitutions
= config.copy()`, so the dict behind the config reference is the same
before and after the call, whether the call succeeds or raises. -/
theorem c8_config_unchanged (content : List Char) (st : Deploy.DictStore)
    (configRef : Nat) (h : configRef < st.length) :
    Deploy.storeGet (Deploy.process_template_st content st configRef).2 configRef =
      Deploy.storeGet st configRef := by
  have hne : configRef ≠ st.length := by omega
  have e0 : Deploy.storeGet (st ++ [Deploy.storeGet st configRef]) configRef =
      Deploy.storeGet st configRef := Deploy.storeGet_append_lt st _ configRef h
  simp only [Deploy.process_template_st]
  cases h1 : Deploy.b64SetStep (st ++ [Deploy.storeGet st configRef]) configRef
      st.length "PG_USER" "PG_USER_B64" with
  | error e =>
    dsimp only
    exact e0
  | ok st2 =>
    dsimp only
    have f1 : Deploy.storeGet st2 configRef = Deploy.storeGet st configRef := by
      rw [Deploy.b64SetStep_frame _ _ _ _ _ _ _ hne h1]
      exact e0
    cases h2 : Deploy.b64SetStep st2 configRef st.length "PG_PASSWORD" "PG_PASSWORD_B64" with
    | error e =>
      dsimp only
      exact f1
    | ok st3 =>
      dsimp only
      have f2 : Deploy.storeGet st3 configRef = Deploy.storeGet st configRef := by
        rw [Deploy.b64SetStep_frame _ _ _ _ _ _ _ hne h2]
        exact f1
      cases h3 : Deploy.b64SetStep st3 configRef st.length "PG_HOST" "PG_HOST_B64" with
      | error e =>
        dsimp only
        exact f2
      | ok st4 =>
        dsimp only
        have f3 : Deploy.storeGet st4 configRef = Deploy.storeGet st configRef := by
          rw [Deploy.b64SetStep_frame _ _ _ _ _ _ _ hne h3]
          exact f2
        cases h4 : Deploy.b64SetStep st4 configRef st.length "PG_DATABASE"
            "PG_DATABASE_B64" with
        | error e =>
          dsimp only
          exact f3
        | ok st5 =>
          dsimp only
          have f4 : Deploy.storeGet st5 configRef = Deploy.storeGet st configRef := by
            rw [Deploy.b64SetStep_frame _ _ _ _ _ _ _ hne h4]
            exact f3
          cases h5 : Deploy.b64SetStep st5 configRef st.length "PG_PORT" "PG_PORT_B64" with
          | error e =>
            dsimp only
            exact f4
          | ok st6 =>
            dsimp only
            have f5 : Deploy.storeGet st6 configRef = Deploy.storeGet st configRef := by
              rw [Deploy.b64SetStep_frame _ _ _ _ _ _ _ hne h5]
              exact f4
            cases h6 : Deploy.b64SetStep st6 configRef st.length "PG_SCHEMA"
                "PG_SCHEMA_B64" with
            | error e =>
              dsimp only
              exact f5
            | ok st7 =>
              dsimp only
              have f6 : Deploy.storeGet st7 configRef = Deploy.storeGet st configRef := by
                rw [Deploy.b64SetStep_frame _ _ _ _ _ _ _ hne h6]
                exact f5
              cases h7 : Deploy.substT (Deploy.storeGet st7 st.length)
                  (Deploy.tokenize content) with
              | error e =>
                dsimp only
                exact f6
              | ok out =>
                dsimp only
                exact f6

/-- Witness for `c8_config_unchanged`: a one-dict heap holding the six-key
configuration. -/
theorem c8_config_unchanged_witness :
    0 < ([Fixtures.cfgW] : Deploy.DictStore).length ∧
    Deploy.storeGet (Deploy.process_template_st Fixtures.tmplW [Fixtures.cfgW] 0).2 0 =
      Deploy.storeGet [Fixtures.cfgW] 0 :=
  ⟨by decide, c8_config_unchanged Fixtures.tmplW [Fixtures.cfgW] 0 (by decide)⟩

/-- C10 (confirmed): the five base templates are always among the templates
attempted, and the ingress template is attempted exactly when the
configuration has a truthy `MLFLOW_PATH` entry. -/
theorem c10_template_selection (config : Deploy.Dict) :
    (∀ t ∈ Deploy.template_files_base, t ∈ Deploy.template_files config) ∧
    ("mlflow-ingress-template.yaml" ∈ Deploy.template_files config ↔
      ∃ v, Deploy.dictGet config "MLFLOW_PATH" = some v ∧ Deploy.truthy v = true) := by
  have hnb : "mlflow-ingress-template.yaml" ∉ Deploy.template_files_base := by decide
  constructor
  · intro t ht
    exact List.mem_append_left _ ht
  · unfold Deploy.template_files
    cases hv : Deploy.dictGet config "MLFLOW_PATH" with
    | none =>
        simp [Deploy.truthyOpt, hnb]
    | some v =>
        cases htv : Deploy.truthy v with
        | true => simp [Deploy.truthyOpt, htv, hnb]
        | false => simp [Deploy.truthyOpt, htv, hnb]

/-! ### C1, C6, C9: deployment verification -/

theorem except_bind_ok {α β : Type} (a : α) (f : α → Except PyErr β) :
    (Except.ok a >>= f) = f a := rfl

theorem except_bind_error {α β : Type} (e : PyErr) (f : α → Except PyErr β) :
    ((Except.error e : Except PyErr α) >>= f) = Except.error e := rfl

/-- C6 (confirmed): the verification routine always attempts all five
checks, in the fixed order namespace, pods, services, storage, secrets; a
check that raises is recorded as a failed check (`exceptToBool` maps an
exception to `false`), and the loop never aborts early. -/
theorem c6_all_checks_attempted (w : DeployTest.KubeWorld) :
    (DeployTest.runChecks w).map Prod.fst =
      ["Namespace", "Pods", "Services", "Storage", "Secrets"] ∧
    DeployTest.runChecks w =
      [("Namespace", DeployTest.exceptToBool (DeployTest.test_namespace w)),
       ("Pods", DeployTest.exceptToBool (DeployTest.test_pods w)),
       ("Services", DeployTest.exceptToBool (DeployTest.test_services w)),
       ("Storage", DeployTest.exceptToBool (DeployTest.test_storage w)),
       ("Secrets", DeployTest.exceptToBool (DeployTest.test_secrets w))] ∧
    (DeployTest.runChecks w).length = 5 :=
  ⟨rfl, rfl, rfl⟩

/-- C1 (confirmed): for a valid environment, the summary reports exactly as
many passes as checks that returned healthy, out of 5 total (hence 5 − N
failures), and the exit code is 0 exactly when all five are healthy. -/
theorem c1_summary (environment : String) (w : DeployTest.KubeWorld)
    (h : environment = "dev" ∨ environment = "prod") :
    (DeployTest.main environment w).passed = DeployTest.healthyCount w ∧
    (DeployTest.main environment w).total = 5 ∧
    (DeployTest.main environment w).total - (DeployTest.main environment w).passed =
      5 - DeployTest.healthyCount w ∧
    ((DeployTest.main environment w).exitCode = 0 ↔ DeployTest.healthyCount w = 5) := by
  have key : ∀ r : Except PyErr Bool, DeployTest.isOkTrue r = DeployTest.exceptToBool r := by
    intro r
    cases r with
    | ok b => cases b <;> rfl
    | error e => rfl
  simp only [DeployTest.main, if_pos h, DeployTest.healthyCount, DeployTest.runChecks,
    DeployTest.tests, key, List.map_cons, List.map_nil, List.filter_cons, List.filter_nil]
  generalize DeployTest.exceptToBool (DeployTest.test_namespace w) = b1
  generalize DeployTest.exceptToBool (DeployTest.test_pods w) = b2
  generalize DeployTest.exceptToBool (DeployTest.test_services w) = b3
  generalize DeployTest.exceptToBool (DeployTest.test_storage w) = b4
  generalize DeployTest.exceptToBool (DeployTest.test_secrets w) = b5
  cases b1 <;> cases b2 <;> cases b3 <;> cases b4 <;> cases b5 <;> simp

/-- Witness for `c1_summary`: the environment `dev` against a mocked
cluster in which exactly one of the five checks (pods) is healthy. -/
theorem c1_summary_witness :
    ("dev" = "dev" ∨ "dev" = "prod") ∧
    DeployTest.healthyCount Fixtures.wOnlyPods = 1 ∧
    ((DeployTest.main "dev" Fixtures.wOnlyPods).passed =
        DeployTest.healthyCount Fixtures.wOnlyPods ∧
      (DeployTest.main "dev" Fixtures.wOnlyPods).total = 5 ∧
      (DeployTest.main "dev" Fixtures.wOnlyPods).total -
          (DeployTest.main "dev" Fixtures.wOnlyPods).passed =
        5 - DeployTest.healthyCount Fixtures.wOnlyPods ∧
      ((DeployTest.main "dev" Fixtures.wOnlyPods).exitCode = 0 ↔
        DeployTest.healthyCount Fixtures.wOnlyPods = 5)) :=
  ⟨Or.inl rfl, by decide, c1_summary "dev" Fixtures.wOnlyPods (Or.inl rfl)⟩

/-- C9 (counterexample): a pods response whose query succeeds (return code
0), parses as JSON, and has a non-empty `items` list still does not make
`test_pods` return true when an item lacks `metadata`: the lookup raises
`KeyError`, which `test_pods` does not catch. -/
theorem c9_counterexample :
    Fixtures.wPodNoMeta.pods.returncode = 0 ∧
    Fixtures.wPodNoMeta.pods.parsed =
      some (DeployTest.JVal.obj
        [("items", DeployTest.JVal.arr [DeployTest.JVal.obj []])]) ∧
    DeployTest.jTruthy (DeployTest.JVal.arr [DeployTest.JVal.obj []]) = true ∧
    DeployTest.test_pods Fixtures.wPodNoMeta = Except.error PyErr.keyError :=
  ⟨rfl, rfl, rfl, rfl⟩

/-- C9 (amended): `test_pods` returns true iff the cluster query succeeds,
its output parses as JSON, the parsed `items` entry exists and is truthy
(for a list: non-empty), and every item carries `metadata.name` and
`status.phase`; no item is required to have phase `Running` (that check
only prints a warning), but a malformed item makes the check raise rather
than return true. -/
theorem c9_pods_characterization (w : DeployTest.KubeWorld) :
    DeployTest.test_pods w = Except.ok true ↔
      (w.pods.returncode = 0 ∧
       ∃ d, w.pods.parsed = some d ∧
       ∃ its, DeployTest.jLookup d "items" = Except.ok its ∧
         DeployTest.jTruthy its = true ∧
       ∃ l, DeployTest.jIter its = Except.ok l ∧
         ∀ pod ∈ l, eIsOk (DeployTest.podFields pod) = true) := by
  unfold DeployTest.test_pods
  by_cases hr : w.pods.returncode = 0
  · rw [if_pos hr]
    cases hp : w.pods.parsed with
    | none =>
        simp
    | some d =>
        simp only [Option.some.injEq]
        cases hi : DeployTest.jLookup d "items" with
        | error e =>
            rw [except_bind_error]
            constructor
            · intro hh
              simp at hh
            · rintro ⟨-, d2, hd2, its, hits, -⟩
              rw [← hd2] at hits
              rw [hi] at hits
              simp at hits
        | ok its =>
            rw [except_bind_ok]
            by_cases ht : DeployTest.jTruthy its = true
            · rw [if_pos ht]
              cases he : DeployTest.jIter its with
              | error e =>
                  rw [except_bind_error]
                  constructor
                  · intro hh
                    simp at hh
                  · rintro ⟨-, d2, hd2, its2, hits2, -, l, hl, -⟩
                    rw [← hd2] at hits2
                    rw [hi] at hits2
                    rw [Except.ok.injEq] at hits2
                    rw [← hits2] at hl
                    rw [he] at hl
                    simp at hl
              | ok l =>
                  rw [except_bind_ok]
                  cases hm : l.mapM DeployTest.podFields with
                  | error e =>
                      rw [except_bind_error]
                      constructor
                      · intro hh
                        simp at hh
                      · rintro ⟨-, d2, hd2, its2, hits2, -, l2, hl2, hall⟩
                        rw [← hd2] at hits2
                        rw [hi] at hits2
                        rw [Except.ok.injEq] at hits2
                        rw [← hits2] at hl2
                        rw [he] at hl2
                        rw [Except.ok.injEq] at hl2
                        have hok : l.mapM DeployTest.podFields =
                            Except.ok (l.map fun _ => ()) := by
                          refine except_mapM_map _ _ _ ?_
                          intro a ha
                          have := hall a (hl2 ▸ ha)
                          cases hfa : DeployTest.podFields a with
                          | ok u =>
                              cases u
                              rfl
                          | error e2 =>
                              rw [hfa] at this
                              simp [eIsOk] at this
                        rw [hm] at hok
                        simp at hok
                  | ok u =>
                      rw [except_bind_ok]
                      constructor
                      · intro _
                        refine ⟨hr, d, rfl, its, hi, ht, l, he, ?_⟩
                        intro a ha
                        rcases except_mapM_ok_forall _ _ _ hm a ha with ⟨b, hb⟩
                        simp [eIsOk, hb]
                      · intro _
                        rfl
            · rw [if_neg ht]
              constructor
              · intro hh
                rw [show (pure false : Except PyErr Bool) = Except.ok false from rfl] at hh
                simp at hh
              · rintro ⟨-, d2, hd2, its2, hits2, htr, -⟩
                rw [← hd2] at hits2
                rw [hi] at hits2
                rw [Except.ok.injEq] at hits2
                rw [← hits2] at htr
                exact absurd htr ht
  · rw [if_neg hr]
    constructor
    · intro hh
      simp at hh
    · rintro ⟨h0, -⟩
      exact absurd h0 hr

/-! ### C7: exit codes of the entry points -/

/-- C7 (counterexample): a run of `simple_test` in which `start_run` fails
against the tracking server is a detected failure (the work did not
succeed), yet the process exit code is 0: the handler only prints and the
script never calls `sys.exit`. -/
theorem c7_counterexample :
    SimpleTest.simple_test Fixtures.tBad = (0, false) :=
  rfl

/-- C7 (amended): the deployment-verification entry point exits 0 exactly
when all five checks pass and 1 otherwise, but `simple_test.py` always
exits 0, even when a tracking-server operation fails. -/
theorem c7_exit_codes (t : SimpleTest.TrackingOps) (environment : String)
    (w : DeployTest.KubeWorld)
    (h : environment = "dev" ∨ environment = "prod") :
    (SimpleTest.simple_test t).1 = 0 ∧
    ((DeployTest.main environment w).exitCode = 0 ∨
      (DeployTest.main environment w).exitCode = 1) ∧
    ((DeployTest.main environment w).exitCode = 0 ↔
      (DeployTest.runChecks w).all (fun p => p.2) = true) := by
  refine ⟨?_, ?_, ?_⟩
  · unfold SimpleTest.simple_test
    cases SimpleTest.simple_test_body t <;> rfl
  · simp only [DeployTest.main, if_pos h]
    by_cases hp : ((DeployTest.runChecks w).filter fun p => p.2).length =
        (DeployTest.runChecks w).length
    · left
      simp [hp]
    · right
      simp [hp]
  · simp only [DeployTest.main, if_pos h]
    by_cases hp : ((DeployTest.runChecks w).filter fun p => p.2).length =
        (DeployTest.runChecks w).length
    · simp only [if_pos hp]
      have hall : ∀ p ∈ DeployTest.runChecks w, (fun q => q.2) p = true :=
        List.filter_length_eq_length.mp hp
      simp only [List.all_eq_true]
      constructor
      · intro _
        exact hall
      · intro _
        trivial
    · simp only [if_neg hp]
      constructor
      · intro hh
        simp at hh
      · intro hall
        exfalso
        refine hp (List.filter_length_eq_length.mpr ?_)
        rw [List.all_eq_true] at hall
        exact hall

/-- Witness for `c7_exit_codes`: the all-successful tracking run, the
environment `dev`, and the all-healthy cluster. -/
theorem c7_exit_codes_witness :
    ("dev" = "dev" ∨ "dev" = "prod") ∧
    ((SimpleTest.simple_test Fixtures.tOk).1 = 0 ∧
      ((DeployTest.main "dev" Fixtures.wAllGood).exitCode = 0 ∨
        (DeployTest.main "dev" Fixtures.wAllGood).exitCode = 1) ∧
      ((DeployTest.main "dev" Fixtures.wAllGood).exitCode = 0 ↔
        (DeployTest.runChecks Fixtures.wAllGood).all (fun p => p.2) = true)) :=
  ⟨Or.inl rfl, c7_exit_codes Fixtures.tOk "dev" Fixtures.wAllGood (Or.inl rfl)⟩

/-! ### C5: the bounded health-check poll -/

theorem waitAux_exhaust (srv : Nat → Option Int) :
    ∀ (remaining i : Nat), (∀ j, i ≤ j → j < i + remaining → srv j ≠ some 200) →
      Voltage.waitAux srv remaining i =
        (Except.error PyErr.connectionError, i + remaining) := by
  intro remaining
  induction remaining with
  | zero =>
      intro i h
      simp [Voltage.waitAux]
  | succ rem ih =>
      intro i h
      have hi : srv i ≠ some 200 := h i (Nat.le_refl i) (by omega)
      simp only [Voltage.waitAux]
      rw [if_neg hi]
      rw [ih (i + 1) (fun j hj1 hj2 => h j (by omega) (by omega))]
      have : i + 1 + rem = i + (rem + 1) := by omega
      rw [this]

/-- C5 (confirmed): against a server that never returns status 200, the
poll issues exactly `max_wait` requests (one per loop iteration) and then
raises `ConnectionError`; it never returns success. -/
theorem c5_poll_bounded (srv : Nat → Option Int) (max_wait : Nat)
    (h : ∀ j, j < max_wait → srv j ≠ some 200) :
    Voltage.wait_for_mlflow_server srv max_wait =
      (Except.error PyErr.connectionError, max_wait) := by
  unfold Voltage.wait_for_mlflow_server
  have := waitAux_exhaust srv max_wait 0 (fun j hj1 hj2 => h j (by omega))
  simpa using this

/-- Witness for `c5_poll_bounded`: a server whose requests always raise,
polled with a ceiling of 3 iterations. -/
theorem c5_poll_bounded_witness :
    Voltage.wait_for_mlflow_server (fun _ => none) 3 =
      (Except.error PyErr.connectionError, 3) :=
  c5_poll_bounded (fun _ => none) 3 (by intro j hj; simp)
